import Mathlib

/-!
Verification of the HouseMech core (housemech_rule.c, housemech_event.c,
housemech_sensor.c, housemech_control.c) against its design specification.

The C modules are shallowly embedded: each callback or helper becomes a pure
Lean function over an explicit state; machine integers (long long, time_t,
int) become Int; C strings become String; the Tcl rule engine becomes an
abstract predicate telling which rule keys evaluate successfully.
-/

namespace HouseMech

/-! ## Rule dispatcher (housemech_rule.c)

The Tcl engine is abstracted by `ok : String → Bool`: `ok key` holds exactly
when `Tcl_Eval` of the command named `key` returns TCL_OK (a rule with that
name is defined and runs successfully).  Each trigger function tries its
fixed key chain in order, stopping at the first successful evaluation;
the result records the handled flag and the list of rules actually invoked.
-/

/-- Shared fallback chain of housemech_rule_trigger_event, _sensor and
_control: evaluate each key in order; the first successful one is invoked
and the chain stops (returns 1 in the C code).  Returns the handled flag
and the list of rules that were invoked (ran successfully). -/
def housemech_rule_dispatch (ok : String → Bool) : List String → Bool × List String
  | [] => (false, [])
  | k :: rest => if ok k then (true, [k]) else housemech_rule_dispatch ok rest

/-- Key chain of housemech_rule_trigger_event (housemech_rule.c lines
241-263): EVENT.category.name.action, then EVENT.category.name, then
EVENT.category. -/
def housemech_event_keys (category name action : String) : List String :=
  ["EVENT." ++ category ++ "." ++ name ++ "." ++ action,
   "EVENT." ++ category ++ "." ++ name,
   "EVENT." ++ category]

/-- Key chain of housemech_rule_trigger_sensor (housemech_rule.c lines
280-293): SENSOR.location.name, then SENSOR.location. -/
def housemech_sensor_keys (location name : String) : List String :=
  ["SENSOR." ++ location ++ "." ++ name,
   "SENSOR." ++ location]

/-- Key chain of housemech_rule_trigger_control (housemech_rule.c line
303): POINT.name only, no fallback. -/
def housemech_control_keys (name : String) : List String :=
  ["POINT." ++ name]

/-- housemech_rule_trigger_event: try the event key chain, first success
wins.  The action and name values are passed to the invoked rule as Tcl
parameters; they do not influence which rule is selected. -/
def housemech_rule_trigger_event (ok : String → Bool)
    (category name action : String) : Bool × List String :=
  housemech_rule_dispatch ok (housemech_event_keys category name action)

/-- housemech_rule_trigger_sensor: try the sensor key chain, first success
wins. -/
def housemech_rule_trigger_sensor (ok : String → Bool)
    (location name _value : String) : Bool × List String :=
  housemech_rule_dispatch ok (housemech_sensor_keys location name)

/-- housemech_rule_trigger_control: try the single POINT.name key. -/
def housemech_rule_trigger_control (ok : String → Bool)
    (name _state : String) : Bool × List String :=
  housemech_rule_dispatch ok (housemech_control_keys name)

/-! ## Locked-source poller (housemech_event.c, housemech_sensor.c)

Each poll stream keeps three globals: HouseMechCurrentServer (the locked
provider, NULL when unlocked), HouseMechLatestId (last accepted record id)
and HouseMech{Event,Sensor}LatestTime (the since watermark). -/

/-- Per-stream poller state: the locked provider URL (none = unlocked), the
last accepted record id, and the time watermark used as the since query
parameter. -/
structure PollState where
  currentServer : Option String
  latestId : Int
  latestTime : Int
deriving Repr, DecidableEq

/-- Stale-response guard shared by every callback: a response is ignored
when a lock is held on a different provider than the response's origin
(strcmp on the provider URL). -/
def housemech_stale (st : PollState) (provider : String) : Bool :=
  match st.currentServer with
  | some s => s ≠ provider
  | none => false

/-- Model of the decision logic of housemech_event_check_response
(housemech_event.c lines 197-271), entered after the HTTP status is 200 and
the .host and .saga.latest fields parsed: decide whether to issue a fetch
(returning the since parameter) and how the state changes.  Note: when
locked, the only cursor test is equality with the reported latest id; there
is no reset of the cursor when the reported latest id is lower. -/
def housemech_event_check_decide (st : PollState) (provider : String)
    (latestvalue : Int) (ready : Bool) : PollState × Option Int :=
  if housemech_stale st provider then (st, none)
  else
    match st.currentServer with
    | none =>
        if ready then (st, some st.latestTime) else (st, none)
    | some _ =>
        if st.latestId = latestvalue then (st, none)
        else if ready then (st, some st.latestTime) else (st, none)

/-- Model of the decision logic of housemech_sensor_check_response
(housemech_sensor.c lines 198-276), entered after the HTTP status is 200
and the .host and .saga.latest fields parsed: same shape as the event
stream, except that when locked and the reported latest id is lower than
the cursor id, the provider is assumed restarted and the cursor id is
reset to 0 (before the readiness gate). -/
def housemech_sensor_check_decide (st : PollState) (provider : String)
    (latestvalue : Int) (ready : Bool) : PollState × Option Int :=
  if housemech_stale st provider then (st, none)
  else
    match st.currentServer with
    | none =>
        if ready then (st, some st.latestTime) else (st, none)
    | some _ =>
        if st.latestId = latestvalue then (st, none)
        else
          let st2 := if st.latestId > latestvalue
                     then { st with latestId := 0 } else st
          if ready then (st2, some st2.latestTime) else (st2, none)

/-- One record of a fetched history batch: the JSON tuple
[timestamp, field1, field2, field3, ..., id] (fields [0], [1], [2], [3]
and [7] are the ones the code reads). -/
structure PollRecord where
  timestamp : Int
  field1 : String
  field2 : String
  field3 : String
  id : Int
deriving Repr, DecidableEq

/-- The running-maximum step used for latesttime in the batch loop:
if (timestamp > latesttime) latesttime = timestamp. -/
def housemech_ts_max (seen : Int) (r : PollRecord) : Int :=
  if r.timestamp > seen then r.timestamp else seen

/-- Maximum timestamp of a record list, folded from 0 exactly as the C loop
folds latesttime (initialized to 0) over the accepted records. -/
def housemech_batch_ts_max (l : List PollRecord) : Int :=
  l.foldl housemech_ts_max 0

/-- One iteration of the batch loop of housemech_event_response /
housemech_sensor_response: skip the record if its id is not above the
running cursor; otherwise the id becomes the cursor, the record is handed
to the rule dispatcher (appended to the delivered list) and latesttime is
updated.  The accumulator is (cursor id, delivered records, latesttime). -/
def housemech_accept_step (acc : Int × List PollRecord × Int)
    (r : PollRecord) : Int × List PollRecord × Int :=
  match acc with
  | (cursor, delivered, seen) =>
    if r.id ≤ cursor then (cursor, delivered, seen)
    else (r.id, delivered ++ [r], housemech_ts_max seen r)

/-- The batch loop: for (i = n - 1; i >= 0; --i) walks the JSON array from
its last element to its first, i.e. the fold runs over the reverse of the
presented batch order. -/
def housemech_process_batch (cursor : Int) (batch : List PollRecord) :
    Int × List PollRecord × Int :=
  batch.reverse.foldl housemech_accept_step (cursor, [], 0)

/-- Model of the successful-parse path of housemech_event_response /
housemech_sensor_response (housemech_event.c lines 90-187,
housemech_sensor.c lines 92-188, identical shape): drop a stale response;
lock onto the provider (cursor id reset to 0) when unlocked; when the batch
is non-empty run the acceptance loop and then advance the watermark to
latesttime - 5 only when that is strictly ahead.  Every batch element is
taken to be a well-formed record array (the PARSER_ARRAY guard).  Returns
the new state and the records delivered to the rule dispatcher. -/
def housemech_poll_response_model (st : PollState) (provider : String)
    (batch : List PollRecord) : PollState × List PollRecord :=
  if housemech_stale st provider then (st, [])
  else
    let st1 := match st.currentServer with
               | none => { st with currentServer := some provider, latestId := 0 }
               | some _ => st
    if 0 < batch.length then
      let res := housemech_process_batch st1.latestId batch
      let newTime := if res.2.2 - 5 > st1.latestTime
                     then res.2.2 - 5 else st1.latestTime
      ({ st1 with latestId := res.1, latestTime := newTime }, res.2.1)
    else (st1, [])

/-- The events instantiation of the fetch-response handler
(housemech_event_response). -/
def housemech_event_response_model : PollState → String → List PollRecord →
    PollState × List PollRecord :=
  housemech_poll_response_model

/-- The sensors instantiation of the fetch-response handler
(housemech_sensor_response). -/
def housemech_sensor_response_model : PollState → String → List PollRecord →
    PollState × List PollRecord :=
  housemech_poll_response_model

/-- Model of housemech_event_initialize (housemech_event.c lines 64-71):
set the event watermark to time(0) * 1000 unless it is already positive. -/
def housemech_event_init (watermark now : Int) : Int :=
  if watermark ≤ 0 then now * 1000 else watermark

/-- Model of housemech_sensor_initialize (housemech_sensor.c lines 66-73):
set the sensor watermark to time(0) * 1000 unless it is already positive. -/
def housemech_sensor_init (watermark now : Int) : Int :=
  if watermark ≤ 0 then now * 1000 else watermark

/-! ## Control registry and actuator (housemech_control.c)

A control point is the HouseControl struct: name, last known state (NULL =
never observed), one-character status, pulse deadline (0 = none) and owning
provider URL ("" = unknown).  The registry is the Controls array; time_t is
Int. -/

/-- One control point of the registry (struct HouseControl). -/
structure HouseControl where
  name : String
  state : Option String
  status : Char
  deadline : Int
  url : String
deriving Repr, DecidableEq

/-- housemech_control_search (housemech_control.c lines 100-125): find the
control by name, or append a fresh placeholder (state NULL, status u, no
deadline, empty URL).  Returns the (possibly grown) registry and the found
or created entry. -/
def housemech_control_search (controls : List HouseControl) (name : String) :
    List HouseControl × HouseControl :=
  match controls.find? (fun c => c.name = name) with
  | some c => (controls, c)
  | none =>
      let fresh : HouseControl := ⟨name, none, 'u', 0, ""⟩
      (controls ++ [fresh], fresh)

/-- Write back a mutated entry through the pointer the search returned:
replace the entry carrying the same name (names are unique, first-seen-wins
allocation). -/
def housemech_control_set (controls : List HouseControl)
    (c : HouseControl) : List HouseControl :=
  controls.map (fun x => if x.name = c.name then c else x)

/-- Outcome of housemech_control_start: the registry, the ControlsActive
flag, the returned value, the HTTP requests issued and the events logged.
echttp_escape on the cause is abstracted as the identity. -/
structure StartResult where
  controls : List HouseControl
  active : Bool
  success : Bool
  requests : List String
  events : List String
deriving Repr, DecidableEq

/-- Model of housemech_control_start (housemech_control.c lines 269-307):
find or create the named point; with no owning provider, log a CONTROL
UNKNOWN event and return 0 without any request; otherwise log the
ACTIVATED event, issue the set request (connectOk models echttp_client
succeeding; on failure return 0 with no further change), then set the
deadline to now + pulse when pulse > 0, mark the status active and raise
the ControlsActive flag. -/
def housemech_control_start (controls : List HouseControl) (active : Bool)
    (now : Int) (name : String) (pulse : Int) (reason : String)
    (connectOk : Bool) : StartResult :=
  let s := housemech_control_search controls name
  let controls1 := s.1
  let c := s.2
  if c.url = "" then
    ⟨controls1, active, false, [], ["CONTROL " ++ name ++ " UNKNOWN"]⟩
  else
    let url := c.url ++ "/set?point=" ++ name ++ "&state=on&pulse="
                 ++ toString pulse ++ "&cause=" ++ reason
    if connectOk then
      let c2 : HouseControl :=
        { c with deadline := if pulse > 0 then now + pulse else c.deadline,
                 status := 'a' }
      ⟨housemech_control_set controls1 c2, true, true, [url],
       ["CONTROL " ++ name ++ " ACTIVATED"]⟩
    else
      ⟨controls1, active, false, [],
       ["CONTROL " ++ name ++ " ACTIVATED"]⟩

/-- Model of the pulse-expiry scan of housemech_control_background
(housemech_control.c lines 437-453): when the ControlsActive flag is set,
every point whose deadline is non-zero and already past (deadline < now)
has its deadline cleared and its status set inactive; the flag stays set
exactly when some point still has a pending (non-zero, not yet past)
deadline.  The scan issues no HTTP request (the third component); the
separate periodic discovery refresh (line 454) is outside this scan. -/
def housemech_control_expire (controls : List HouseControl) (active : Bool)
    (now : Int) : List HouseControl × Bool × List String :=
  if active then
    (controls.map (fun c =>
        if c.deadline ≠ 0 ∧ c.deadline < now
        then { c with deadline := 0, status := 'i' } else c),
     controls.any (fun c => decide (c.deadline ≠ 0 ∧ now ≤ c.deadline)),
     [])
  else (controls, false, [])

/-- Outcome of housemech_control_result: the mutated control point, whether
the failure was logged, and whether the response body was folded into the
registry (housemech_control_update invoked on it). -/
structure ResultOutcome where
  control : HouseControl
  logged : Bool
  folded : Bool
deriving Repr, DecidableEq

/-- Model of housemech_control_result (housemech_control.c lines 204-222):
on a non-200 status, log only when the point was not already in error,
set the status to error and clear the deadline; then, in every case, hand
the response body to housemech_control_update (the fold is attempted
unconditionally, after the error handling). -/
def housemech_control_result (control : HouseControl) (status : Int) :
    ResultOutcome :=
  if status ≠ 200 then
    ⟨{ control with status := 'e', deadline := 0 },
     decide (control.status ≠ 'e'), true⟩
  else
    ⟨control, false, true⟩

/-- The re-routing step of the update loop (housemech_control.c lines
181-186): when the stored owning URL differs from the reporting provider,
adopt the provider and mark the status routed/inactive. -/
def housemech_control_reroute (provider : String)
    (control : HouseControl) : HouseControl :=
  if control.url ≠ provider
  then { control with url := provider, status := 'i' }
  else control

/-- Model of one iteration of the housemech_control_update loop
(housemech_control.c lines 178-201) on a single reported point: re-route
the point to the reporting provider when the stored URL differs (status
routed/inactive; the ROUTE event is not tracked here); when the payload
carries a state field, compare with the last known state: on change invoke
the control-triggered rule entry (returned as some (point name, new
state)) and then store the new state; on first observation store without
triggering; on an equal state change nothing. -/
def housemech_control_update_item (provider : String)
    (control : HouseControl) (reported : Option String) :
    HouseControl × Option (String × String) :=
  let c1 := housemech_control_reroute provider control
  match reported with
  | none => (c1, none)
  | some s =>
      match c1.state with
      | some prev =>
          if s ≠ prev then ({ c1 with state := some s }, some (c1.name, s))
          else (c1, none)
      | none => ({ c1 with state := some s }, none)

/-- The status line of one control point in the JSON status:
["name","statusChar","url",remainingSeconds]; remaining is deadline - now
for an active point, 0 otherwise (housemech_control.c lines 481-485). -/
def housemech_control_json (now : Int) (c : HouseControl) : String :=
  "[\"" ++ c.name ++ "\",\"" ++ c.status.toString ++ "\",\"" ++ c.url
    ++ "\"," ++ toString (if c.status = 'a' then c.deadline - now else 0)
    ++ "]"

/-- Comma-separate rendered items exactly as the prefix variable does:
the first item carries no prefix, every later one a leading comma. -/
def housemech_join_items (items : List String) : List String :=
  match items with
  | [] => []
  | x :: rest => x :: rest.map (fun y => "," ++ y)

/-- The successive snprintf appends of housemech_control_status
(housemech_control.c lines 457-493), in order. -/
def housemech_status_pieces (providers : List String)
    (controls : List HouseControl) (now : Int) : List String :=
  ["\"servers\":["]
    ++ housemech_join_items (providers.map (fun p => "\"" ++ p ++ "\""))
    ++ ["]", ",\"controls\":["]
    ++ housemech_join_items (controls.map (housemech_control_json now))
    ++ ["]"]

/-- Total length the appends require (the final snprintf cursor when
nothing overflows). -/
def housemech_pieces_len (l : List String) : Nat :=
  (l.map String.length).sum

/-- The append loop with its per-append truncation test: each snprintf
returns the length the piece requires, the cursor accumulates it, and
cursor >= size at any append point jumps to the overflow label (error,
carrying the cursor value that gets logged).  Otherwise the total cursor
is returned. -/
def housemech_write_pieces (size : Nat) : List String → Nat → Except Nat Nat
  | [], cursor => .ok cursor
  | p :: rest, cursor =>
      let c2 := cursor + p.length
      if size ≤ c2 then .error c2 else housemech_write_pieces size rest c2

/-- Model of housemech_control_status (housemech_control.c lines 457-500):
serialize the provider and control sections into a buffer of the given
size; on any overflow the output becomes the empty string, 0 is returned
and the needed size is logged; otherwise the full document and its length
are returned.  Result: (returned length, buffer content, logged size). -/
def housemech_control_status (providers : List String)
    (controls : List HouseControl) (now : Int) (size : Nat) :
    Nat × String × Option Nat :=
  let pieces := housemech_status_pieces providers controls now
  match housemech_write_pieces size pieces 0 with
  | .ok cursor => (cursor, String.join pieces, none)
  | .error needed => (0, "", some needed)

end HouseMech

namespace HouseMech

theorem housemech_rule_dispatch_eq_find (ok : String → Bool) :
    ∀ keys : List String,
      housemech_rule_dispatch ok keys
        = ((keys.find? ok).isSome, (keys.find? ok).toList) := by
  intro keys
  induction keys with
  | nil => rfl
  | cons k rest ih =>
      by_cases h : ok k
      · simp [housemech_rule_dispatch, List.find?, h]
      · simp only [housemech_rule_dispatch, h, if_false, Bool.false_eq_true]
        rw [ih]
        simp [List.find?, h]

/-- C1: for every trigger invocation (event, sensor, or control), the
dispatcher invokes at most one rule: the invoked-rule list is exactly the
first key of the specificity chain that the engine resolves (List.find?),
so at most one rule fires, it fires exactly once, and no later key of the
chain is invoked, regardless of how many keys would have matched. -/
theorem claim_C1_rule_dispatch_first_match_wins (ok : String → Bool)
    (category name action location value pname state : String) :
    (housemech_rule_trigger_event ok category name action).2
        = ((housemech_event_keys category name action).find? ok).toList
    ∧ (housemech_rule_trigger_sensor ok location name value).2
        = ((housemech_sensor_keys location name).find? ok).toList
    ∧ (housemech_rule_trigger_control ok pname state).2
        = ((housemech_control_keys pname).find? ok).toList
    ∧ (∀ keys : List String, (housemech_rule_dispatch ok keys).2.length ≤ 1)
    ∧ (housemech_rule_trigger_event ok category name action).1
        = ((housemech_event_keys category name action).find? ok).isSome := by
  refine ⟨?_, ?_, ?_, ?_, ?_⟩
  · rw [housemech_rule_trigger_event, housemech_rule_dispatch_eq_find]
  · rw [housemech_rule_trigger_sensor, housemech_rule_dispatch_eq_find]
  · rw [housemech_rule_trigger_control, housemech_rule_dispatch_eq_find]
  · intro keys
    rw [housemech_rule_dispatch_eq_find]
    cases h : keys.find? ok <;> simp
  · rw [housemech_rule_trigger_event, housemech_rule_dispatch_eq_find]

/-- C2 counterexample: with the events stream locked on provider p at
cursor id 5 and a reported latest id of 3 (strictly lower), the events
check handler leaves the cursor id at 5 — it is not reset to 0, refuting
the claim that both poller instantiations reset; the sensors handler does
reset to 0 on the same input. -/
theorem claim_C2_counterexample :
    (housemech_event_check_decide ⟨some "http://p", 5, 1000⟩ "http://p" 3 true).1.latestId = 5
    ∧ (housemech_sensor_check_decide ⟨some "http://p", 5, 1000⟩ "http://p" 3 true).1.latestId = 0 := by
  constructor <;> rfl

/-- C2 amended: while LOCKED with a reported latest id strictly below the
cursor id, only the sensors instantiation resets the cursor id to 0
(restart assumed); the events instantiation leaves the cursor id
unchanged, so re-reported older events still fail the id acceptance
test. -/
theorem claim_C2_amended_only_sensor_resets
    (st : PollState) (provider : String) (latestvalue : Int) (ready : Bool)
    (hlock : st.currentServer = some provider)
    (hlt : latestvalue < st.latestId) :
    (housemech_sensor_check_decide st provider latestvalue ready).1.latestId = 0
    ∧ (housemech_event_check_decide st provider latestvalue ready).1.latestId
        = st.latestId := by
  obtain ⟨server, id0, t0⟩ := st
  simp only [PollState.currentServer] at hlock
  subst hlock
  simp only [PollState.latestId] at hlt
  have hne : ¬ (id0 = latestvalue) := by omega
  have hgt : id0 > latestvalue := hlt
  constructor
  · simp [housemech_sensor_check_decide, housemech_stale, hne, hgt]
    cases ready <;> simp
  · simp [housemech_event_check_decide, housemech_stale, hne]
    cases ready <;> simp

/-- C2 witness: the amended statement instantiated with the stream locked
on provider p, cursor id 5, reported latest id 3. -/
theorem claim_C2_amended_witness :
    ((⟨some "http://p", 5, 1000⟩ : PollState).currentServer = some "http://p")
    ∧ ((3:Int) < (⟨some "http://p", 5, 1000⟩ : PollState).latestId)
    ∧ ((housemech_sensor_check_decide ⟨some "http://p", 5, 1000⟩ "http://p" 3 true).1.latestId = 0
       ∧ (housemech_event_check_decide ⟨some "http://p", 5, 1000⟩ "http://p" 3 true).1.latestId
           = (⟨some "http://p", 5, 1000⟩ : PollState).latestId) :=
  ⟨rfl, by decide,
   claim_C2_amended_only_sensor_resets ⟨some "http://p", 5, 1000⟩ "http://p" 3 true rfl (by decide)⟩

/-- C3 counterexample: with prior cursor id 4 and a batch presented
newest-first with ids [9,7,5,3], the fetch-response handler walks the
array backward (oldest element first), so ids 5, 7 and 9 are all accepted
and delivered to the rule dispatcher — three records, not exactly one —
refuting the claim that the records are processed in the given
(newest-first) order with only id 9 accepted. -/
theorem claim_C3_counterexample :
    ((housemech_event_response_model ⟨some "http://p", 4, 10⟩ "http://p"
        [⟨90, "c", "n", "a", 9⟩, ⟨70, "c", "n", "a", 7⟩,
         ⟨50, "c", "n", "a", 5⟩, ⟨30, "c", "n", "a", 3⟩]).2.map PollRecord.id
      = [5, 7, 9])
    ∧ ((housemech_event_response_model ⟨some "http://p", 4, 10⟩ "http://p"
        [⟨90, "c", "n", "a", 9⟩, ⟨70, "c", "n", "a", 7⟩,
         ⟨50, "c", "n", "a", 5⟩, ⟨30, "c", "n", "a", 3⟩]).2.length ≠ 1) := by
  constructor <;> decide

/-- C3 amended: the batch loop processes the records in reverse of the
presented order (the C loop runs from the last array element back to the
first), the acceptance test being id > running cursor.  For prior cursor
id 4 and the batch presented newest-first [9,7,5,3], the records with ids
5, 7 and 9 are accepted in that (oldest-to-newest) order, each accepted id
becomes the cursor (final cursor 9), all three are delivered to the rule
dispatcher, and id 3 is rejected; the sensors instantiation behaves
identically. -/
theorem claim_C3_amended_reverse_order :
    (∀ (c : Int) (b : List PollRecord),
        housemech_process_batch c b
          = b.reverse.foldl housemech_accept_step (c, [], 0))
    ∧ ((housemech_event_response_model ⟨some "http://p", 4, 10⟩ "http://p"
        [⟨90, "c", "n", "a", 9⟩, ⟨70, "c", "n", "a", 7⟩,
         ⟨50, "c", "n", "a", 5⟩, ⟨30, "c", "n", "a", 3⟩]).2.map PollRecord.id
          = [5, 7, 9])
    ∧ ((housemech_event_response_model ⟨some "http://p", 4, 10⟩ "http://p"
        [⟨90, "c", "n", "a", 9⟩, ⟨70, "c", "n", "a", 7⟩,
         ⟨50, "c", "n", "a", 5⟩, ⟨30, "c", "n", "a", 3⟩]).1.latestId = 9)
    ∧ ((housemech_sensor_response_model ⟨some "http://p", 4, 10⟩ "http://p"
        [⟨90, "c", "n", "a", 9⟩, ⟨70, "c", "n", "a", 7⟩,
         ⟨50, "c", "n", "a", 5⟩, ⟨30, "c", "n", "a", 3⟩]).2.map PollRecord.id
          = [5, 7, 9]) := by
  refine ⟨fun c b => rfl, by decide, by decide, by decide⟩

/-- C10: at module initialization each stream's watermark is set to the
current wall-clock time times 1000 when not already positive, is left
unchanged when already positive, a repeated initialization is the identity
(for any positive clock), and a fetch issued while unlocked uses exactly
the initialized watermark as its since parameter. -/
theorem claim_C10_init_watermark (w now : Int) (hnow : 1 ≤ now) :
    (w ≤ 0 → housemech_event_init w now = now * 1000
            ∧ housemech_sensor_init w now = now * 1000)
    ∧ (0 < w → housemech_event_init w now = w
              ∧ housemech_sensor_init w now = w)
    ∧ (∀ later, housemech_event_init (housemech_event_init w now) later
          = housemech_event_init w now)
    ∧ (∀ later, housemech_sensor_init (housemech_sensor_init w now) later
          = housemech_sensor_init w now)
    ∧ (∀ provider latestvalue id,
        (housemech_event_check_decide ⟨none, id, housemech_event_init w now⟩
            provider latestvalue true).2
          = some (housemech_event_init w now)) := by
  have hpos : 0 < housemech_event_init w now := by
    unfold housemech_event_init
    split <;> nlinarith
  refine ⟨?_, ?_, ?_, ?_, ?_⟩
  · intro h
    constructor <;> simp [housemech_event_init, housemech_sensor_init, h]
  · intro h
    have h2 : ¬ (w ≤ 0) := by omega
    constructor <;> simp [housemech_event_init, housemech_sensor_init, h2]
  · intro later
    simp only [housemech_event_init] at hpos ⊢
    split
    · omega
    · rfl
  · intro later
    have hpos2 : 0 < housemech_sensor_init w now := hpos
    simp only [housemech_sensor_init] at hpos2 ⊢
    split
    · omega
    · rfl
  · intro provider latestvalue id
    rfl

/-- C4 counterexample: start("p1", 10, "test") at t=100 sets status active
and deadline 110, but a background tick at exactly t=110 leaves the
deadline at 110 and the status active (the expiry test is deadline < now,
strict), refuting the claim that a tick at t=110 already expires the
pulse. -/
theorem claim_C4_counterexample :
    ((housemech_control_start [⟨"p1", none, 'u', 0, "http://srv"⟩] false
        100 "p1" 10 "test" true).controls
      = [⟨"p1", none, 'a', 110, "http://srv"⟩])
    ∧ (housemech_control_expire [⟨"p1", none, 'a', 110, "http://srv"⟩] true 110
        = ([⟨"p1", none, 'a', 110, "http://srv"⟩], true, [])) := by
  constructor <;> decide

/-- C4 amended: start at t0 with a positive pulse sets status active and
deadline t0 + pulse, and any background tick at a time strictly greater
than the deadline (t0 + pulse + 1 or later) with no intervening network
event clears the deadline, sets status inactive, clears the active flag,
and issues no HTTP request; a tick at exactly the deadline does not yet
expire it. -/
theorem claim_C4_amended_expiry_strictly_after
    (now0 pulse now : Int) (h0 : 0 < now0) (hpulse : 0 < pulse)
    (hnow : now0 + pulse < now) :
    ((housemech_control_start [⟨"p1", none, 'u', 0, "http://srv"⟩] false
        now0 "p1" pulse "test" true).controls
      = [⟨"p1", none, 'a', now0 + pulse, "http://srv"⟩])
    ∧ ((housemech_control_start [⟨"p1", none, 'u', 0, "http://srv"⟩] false
        now0 "p1" pulse "test" true).active = true)
    ∧ (housemech_control_expire [⟨"p1", none, 'a', now0 + pulse, "http://srv"⟩]
          true now
        = ([⟨"p1", none, 'i', 0, "http://srv"⟩], false, [])) := by
  have h1 : now0 + pulse ≠ 0 := by omega
  have h3 : ¬ (now ≤ now0 + pulse) := by omega
  refine ⟨?_, ?_, ?_⟩
  · simp [housemech_control_start, housemech_control_search,
          housemech_control_set, hpulse]
  · simp [housemech_control_start, housemech_control_search]
  · simp [housemech_control_expire, h1, hnow, h3]

/-- C4 witness: the amended statement at t0=100, pulse 10 (deadline 110),
tick at t=111. -/
theorem claim_C4_amended_expiry_witness :
    ((0:Int) < 100) ∧ ((0:Int) < 10) ∧ ((100:Int) + 10 < 111)
    ∧ (((housemech_control_start [⟨"p1", none, 'u', 0, "http://srv"⟩] false
          100 "p1" 10 "test" true).controls
        = [⟨"p1", none, 'a', 100 + 10, "http://srv"⟩])
       ∧ ((housemech_control_start [⟨"p1", none, 'u', 0, "http://srv"⟩] false
          100 "p1" 10 "test" true).active = true)
       ∧ (housemech_control_expire [⟨"p1", none, 'a', 100 + 10, "http://srv"⟩]
            true 111
          = ([⟨"p1", none, 'i', 0, "http://srv"⟩], false, []))) :=
  ⟨by decide, by decide, by decide,
   claim_C4_amended_expiry_strictly_after 100 10 111
     (by decide) (by decide) (by decide)⟩

/-- C5 counterexample: on a non-200 completion (HTTP 500) the response
body is still handed to housemech_control_update — the fold into the
registry is attempted unconditionally — refuting the claim that the body
is folded only on a 200 response. -/
theorem claim_C5_counterexample :
    (housemech_control_result ⟨"p1", none, 'a', 110, "http://srv"⟩ 500).folded
      = true
    ∧ ((500:Int) ≠ 200) := by
  constructor
  · rfl
  · decide

/-- C5 amended: a non-200 completion sets the point's status to error
(logged exactly when the point was not already in error, so only on the
transition) and clears its deadline; the response body is folded into the
registry as a provider report in every case — on 200 and on non-200
alike. -/
theorem claim_C5_amended_error_then_fold (control : HouseControl)
    (status : Int) (hne : status ≠ 200) :
    (housemech_control_result control status).control.status = 'e'
    ∧ (housemech_control_result control status).control.deadline = 0
    ∧ ((housemech_control_result control status).logged = true
        ↔ control.status ≠ 'e')
    ∧ (housemech_control_result control status).folded = true
    ∧ (housemech_control_result control 200).folded = true := by
  simp [housemech_control_result, hne]

/-- C5 witness: the amended statement at HTTP status 500 on an active
control point. -/
theorem claim_C5_amended_error_then_fold_witness :
    ((500:Int) ≠ 200)
    ∧ ((housemech_control_result ⟨"p1", none, 'a', 110, "http://srv"⟩ 500).control.status = 'e'
       ∧ (housemech_control_result ⟨"p1", none, 'a', 110, "http://srv"⟩ 500).control.deadline = 0
       ∧ ((housemech_control_result ⟨"p1", none, 'a', 110, "http://srv"⟩ 500).logged = true
           ↔ (⟨"p1", none, 'a', 110, "http://srv"⟩ : HouseControl).status ≠ 'e')
       ∧ (housemech_control_result ⟨"p1", none, 'a', 110, "http://srv"⟩ 500).folded = true
       ∧ (housemech_control_result ⟨"p1", none, 'a', 110, "http://srv"⟩ 200).folded = true) :=
  ⟨by decide,
   claim_C5_amended_error_then_fold ⟨"p1", none, 'a', 110, "http://srv"⟩ 500 (by decide)⟩

/-- C6: for a control name whose registry entry has no owning provider
(the entry the search finds or creates has an empty URL), start returns
false, logs the CONTROL UNKNOWN event, issues no actuation request, and
leaves the active flag as it was — a normal failure result. -/
theorem claim_C6_unknown_target_fails (controls : List HouseControl)
    (active : Bool) (now pulse : Int) (name reason : String)
    (connectOk : Bool)
    (hurl : (housemech_control_search controls name).2.url = "") :
    (housemech_control_start controls active now name pulse reason connectOk).success
        = false
    ∧ (housemech_control_start controls active now name pulse reason connectOk).requests
        = []
    ∧ (housemech_control_start controls active now name pulse reason connectOk).events
        = ["CONTROL " ++ name ++ " UNKNOWN"]
    ∧ (housemech_control_start controls active now name pulse reason connectOk).active
        = active := by
  simp [housemech_control_start, hurl]

/-- C6 witness: starting the never-seen point x on an empty registry
fails with no request. -/
theorem claim_C6_unknown_target_fails_witness :
    ((housemech_control_search [] "x").2.url = "")
    ∧ ((housemech_control_start [] false 100 "x" 10 "why" true).success = false
       ∧ (housemech_control_start [] false 100 "x" 10 "why" true).requests = []
       ∧ (housemech_control_start [] false 100 "x" 10 "why" true).events
           = ["CONTROL " ++ "x" ++ " UNKNOWN"]
       ∧ (housemech_control_start [] false 100 "x" 10 "why" true).active = false) :=
  ⟨by decide, claim_C6_unknown_target_fails [] false 100 10 "x" "why" true (by decide)⟩

/-- C7: for a reported point whose payload carries a state field: with a
prior stored state that differs, the control-triggered rule entry is
invoked with (point name, new state) and the new state is stored; with no
prior state the new state is stored without triggering; with an equal
state nothing is stored and no rule fires; and with no state field in the
payload neither happens. -/
theorem claim_C7_state_report (provider : String) (control : HouseControl)
    (s : String) :
    (control.state = none →
        (housemech_control_update_item provider control (some s)).1.state = some s
        ∧ (housemech_control_update_item provider control (some s)).2 = none)
    ∧ (control.state ≠ none → control.state ≠ some s →
        (housemech_control_update_item provider control (some s)).1.state = some s
        ∧ (housemech_control_update_item provider control (some s)).2
            = some (control.name, s))
    ∧ (control.state = some s →
        (housemech_control_update_item provider control (some s)).1.state
            = control.state
        ∧ (housemech_control_update_item provider control (some s)).2 = none)
    ∧ (housemech_control_update_item provider control none).1.state
        = control.state
    ∧ (housemech_control_update_item provider control none).2 = none := by
  have hst : (housemech_control_reroute provider control).state = control.state := by
    unfold housemech_control_reroute
    split <;> rfl
  have hnm : (housemech_control_reroute provider control).name = control.name := by
    unfold housemech_control_reroute
    split <;> rfl
  refine ⟨?_, ?_, ?_, ?_, ?_⟩
  · intro h
    have hc : (housemech_control_reroute provider control).state = none := by
      rw [hst, h]
    simp [housemech_control_update_item, hc]
  · intro h1 h2
    obtain ⟨prev, hprev⟩ := Option.ne_none_iff_exists'.mp h1
    have hc : (housemech_control_reroute provider control).state = some prev := by
      rw [hst, hprev]
    have hsne : s ≠ prev := by
      intro he
      exact h2 (by rw [hprev, he])
    simp [housemech_control_update_item, hc, hsne, hnm]
  · intro h
    have hc : (housemech_control_reroute provider control).state = some s := by
      rw [hst, h]
    simp [housemech_control_update_item, hc, h]
  · simp [housemech_control_update_item, hst]
  · simp [housemech_control_update_item]

theorem housemech_pieces_len_cons (p : String) (rest : List String) :
    housemech_pieces_len (p :: rest)
      = p.length + housemech_pieces_len rest := by
  simp [housemech_pieces_len]

theorem housemech_write_pieces_spec : ∀ (l : List String) (size cursor : Nat),
    (∀ total, housemech_write_pieces size l cursor = .ok total →
        total = cursor + housemech_pieces_len l
        ∧ (l ≠ [] → total < size))
    ∧ (∀ k, housemech_write_pieces size l cursor = .error k →
        size ≤ k ∧ k ≤ cursor + housemech_pieces_len l) := by
  intro l
  induction l with
  | nil =>
      intro size cursor
      constructor
      · intro total h
        simp [housemech_write_pieces] at h
        subst h
        exact ⟨by simp [housemech_pieces_len], fun hne => absurd rfl hne⟩
      · intro k h
        simp [housemech_write_pieces] at h
  | cons p rest ih =>
      intro size cursor
      obtain ⟨hok, herr⟩ := ih size (cursor + p.length)
      by_cases hov : size ≤ cursor + p.length
      · constructor
        · intro total h
          simp [housemech_write_pieces, hov] at h
        · intro k h
          simp [housemech_write_pieces, hov] at h
          have hlen := housemech_pieces_len_cons p rest
          have : 0 ≤ housemech_pieces_len rest := Nat.zero_le _
          omega
      · constructor
        · intro total h
          simp only [housemech_write_pieces, if_neg hov] at h
          obtain ⟨h1, h2⟩ := hok total h
          have hlen := housemech_pieces_len_cons p rest
          refine ⟨by omega, fun _ => ?_⟩
          cases rest with
          | nil =>
              have : total = cursor + p.length := by
                rw [h1]
                simp [housemech_pieces_len]
              omega
          | cons q tail => exact h2 (by simp)
        · intro k h
          simp only [housemech_write_pieces, if_neg hov] at h
          obtain ⟨h1, h2⟩ := herr k h
          have hlen := housemech_pieces_len_cons p rest
          exact ⟨h1, by omega⟩

theorem housemech_status_pieces_ne_nil (providers : List String)
    (controls : List HouseControl) (now : Int) :
    housemech_status_pieces providers controls now ≠ [] := by
  simp [housemech_status_pieces]

/-- C9: for every buffer size, if the serialized control status would not
fit (the required length reaches the buffer size, leaving no room for the
terminator), the status function returns 0, leaves an empty string in the
buffer instead of a truncated partial document, and logs a needed size
that exceeds the buffer (and is at most the full required length). -/
theorem claim_C9_status_overflow_empty (providers : List String)
    (controls : List HouseControl) (now : Int) (size : Nat)
    (hoverflow : size ≤ housemech_pieces_len
        (housemech_status_pieces providers controls now)) :
    (housemech_control_status providers controls now size).1 = 0
    ∧ (housemech_control_status providers controls now size).2.1 = ""
    ∧ ∃ k, (housemech_control_status providers controls now size).2.2 = some k
        ∧ size ≤ k
        ∧ k ≤ housemech_pieces_len
              (housemech_status_pieces providers controls now) := by
  obtain ⟨hok, herr⟩ := housemech_write_pieces_spec
      (housemech_status_pieces providers controls now) size 0
  rcases hw : housemech_write_pieces size
      (housemech_status_pieces providers controls now) 0 with k | total
  · obtain ⟨h1, h2⟩ := herr k hw
    refine ⟨?_, ?_, k, ?_, h1, by omega⟩ <;>
      simp [housemech_control_status, hw]
  · obtain ⟨h1, h2⟩ := hok total hw
    have hne := housemech_status_pieces_ne_nil providers controls now
    have := h2 hne
    omega

/-- C9 witness: one provider and an empty control list need 36 bytes of
content; a 5-byte buffer overflows at the first append, yielding return
value 0, an empty output and a logged needed size of 11. -/
theorem claim_C9_status_overflow_empty_witness :
    (5 ≤ housemech_pieces_len (housemech_status_pieces ["http://a"] [] 0))
    ∧ ((housemech_control_status ["http://a"] [] 0 5).1 = 0
       ∧ (housemech_control_status ["http://a"] [] 0 5).2.1 = ""
       ∧ ∃ k, (housemech_control_status ["http://a"] [] 0 5).2.2 = some k
           ∧ 5 ≤ k
           ∧ k ≤ housemech_pieces_len (housemech_status_pieces ["http://a"] [] 0)) :=
  ⟨by decide, claim_C9_status_overflow_empty ["http://a"] [] 0 5 (by decide)⟩

theorem housemech_ts_max_le (l : List PollRecord) (a : Int) :
    a ≤ l.foldl housemech_ts_max a := by
  induction l generalizing a with
  | nil => simp
  | cons r l ih =>
      simp only [List.foldl]
      refine le_trans ?_ (ih (housemech_ts_max a r))
      unfold housemech_ts_max
      split <;> omega

theorem housemech_ts_max_bound : ∀ (l : List PollRecord) (a : Int)
    (r : PollRecord), r ∈ l → r.timestamp ≤ l.foldl housemech_ts_max a := by
  intro l
  induction l with
  | nil => intro a r hr; cases hr
  | cons s l ih =>
      intro a r hr
      simp only [List.foldl]
      rcases List.mem_cons.mp hr with h | h
      · subst h
        refine le_trans ?_ (housemech_ts_max_le l (housemech_ts_max a r))
        unfold housemech_ts_max
        split <;> omega
      · exact ih (housemech_ts_max a s) r h

theorem housemech_ts_max_mem : ∀ (l : List PollRecord) (a : Int),
    l.foldl housemech_ts_max a = a
    ∨ ∃ r ∈ l, l.foldl housemech_ts_max a = r.timestamp := by
  intro l
  induction l with
  | nil => intro a; left; rfl
  | cons s l ih =>
      intro a
      simp only [List.foldl]
      rcases ih (housemech_ts_max a s) with h | ⟨r, hr, h⟩
      · by_cases hs : s.timestamp > a
        · right
          exact ⟨s, List.mem_cons_self s l, by rw [h]; simp [housemech_ts_max, hs]⟩
        · left
          rw [h]
          simp [housemech_ts_max, hs]
      · right
        exact ⟨r, List.mem_cons_of_mem s hr, h⟩

theorem housemech_accept_fold_structure : ∀ (l : List PollRecord)
    (c seen : Int) (d : List PollRecord),
    ∃ e : List PollRecord,
      (l.foldl housemech_accept_step (c, d, seen)).2.1 = d ++ e
      ∧ (l.foldl housemech_accept_step (c, d, seen)).2.2
          = e.foldl housemech_ts_max seen
      ∧ ∀ r ∈ e, r ∈ l := by
  intro l
  induction l with
  | nil =>
      intro c seen d
      exact ⟨[], by simp, by simp, by simp⟩
  | cons s l ih =>
      intro c seen d
      simp only [List.foldl]
      by_cases hs : s.id ≤ c
      · rw [show housemech_accept_step (c, d, seen) s = (c, d, seen) from by
          simp [housemech_accept_step, hs]]
        obtain ⟨e, h1, h2, h3⟩ := ih c seen d
        exact ⟨e, h1, h2, fun r hr => List.mem_cons_of_mem s (h3 r hr)⟩
      · rw [show housemech_accept_step (c, d, seen) s
            = (s.id, d ++ [s], housemech_ts_max seen s) from by
          simp [housemech_accept_step, hs]]
        obtain ⟨e, h1, h2, h3⟩ := ih s.id (housemech_ts_max seen s) (d ++ [s])
        refine ⟨s :: e, ?_, ?_, ?_⟩
        · rw [h1, List.append_assoc]
          rfl
        · exact h2
        · intro r hr
          rcases List.mem_cons.mp hr with h | h
          · exact h ▸ List.mem_cons_self s l
          · exact List.mem_cons_of_mem s (h3 r h)

theorem housemech_process_batch_spec (c : Int) (batch : List PollRecord) :
    (housemech_process_batch c batch).2.2
        = housemech_batch_ts_max (housemech_process_batch c batch).2.1
    ∧ ∀ r ∈ (housemech_process_batch c batch).2.1, r ∈ batch := by
  obtain ⟨e, h1, h2, h3⟩ :=
    housemech_accept_fold_structure batch.reverse c 0 []
  have he : (housemech_process_batch c batch).2.1 = e := by
    rw [housemech_process_batch, h1]
    rfl
  constructor
  · rw [housemech_process_batch, h2, h1]
    simp [housemech_batch_ts_max]
  · intro r hr
    rw [he] at hr
    exact List.mem_reverse.mp (h3 r hr)

theorem housemech_poll_response_shape (st : PollState) (provider : String)
    (batch : List PollRecord) :
    ((housemech_poll_response_model st provider batch).2 = []
       ∧ (housemech_poll_response_model st provider batch).1.latestTime
           = st.latestTime)
    ∨ (∃ c : Int,
        (housemech_poll_response_model st provider batch).2
            = (housemech_process_batch c batch).2.1
        ∧ (housemech_poll_response_model st provider batch).1.latestTime
            = (if (housemech_process_batch c batch).2.2 - 5 > st.latestTime
               then (housemech_process_batch c batch).2.2 - 5
               else st.latestTime)) := by
  obtain ⟨server, id0, t0⟩ := st
  by_cases hst : housemech_stale ⟨server, id0, t0⟩ provider
  · left
    simp [housemech_poll_response_model, hst]
  · by_cases hb : 0 < batch.length
    · right
      cases server with
      | none =>
          exact ⟨0, by simp [housemech_poll_response_model, hst, hb],
                    by simp [housemech_poll_response_model, hst, hb]⟩
      | some s =>
          exact ⟨id0, by simp [housemech_poll_response_model, hst, hb],
                      by simp [housemech_poll_response_model, hst, hb]⟩
    · left
      cases server <;> simp [housemech_poll_response_model, hst, hb]

/-- C8: for both poll streams (the event and sensor response handlers are
the one poll-response model), the watermark never moves backward across a
processed batch; and when the batch delivers at least one record,
housemech_batch_ts_max of the delivered records is a genuine maximum of
their timestamps (an upper bound that is attained), and the new watermark
equals that maximum minus 5 whenever that value strictly exceeds the
previous watermark. -/
theorem claim_C8_watermark_monotone (st : PollState) (provider : String)
    (batch d : List PollRecord) (w : Int)
    (hpos : ∀ r ∈ batch, 0 < r.timestamp)
    (hd : d = (housemech_poll_response_model st provider batch).2)
    (hw : w = (housemech_poll_response_model st provider batch).1.latestTime) :
    housemech_event_response_model = housemech_poll_response_model
    ∧ housemech_sensor_response_model = housemech_poll_response_model
    ∧ st.latestTime ≤ w
    ∧ (d ≠ [] →
        (∀ r ∈ d, r.timestamp ≤ housemech_batch_ts_max d)
        ∧ housemech_batch_ts_max d ∈ d.map PollRecord.timestamp
        ∧ (housemech_batch_ts_max d - 5 > st.latestTime →
            w = housemech_batch_ts_max d - 5)) := by
  subst hd hw
  refine ⟨rfl, rfl, ?_, ?_⟩
  · rcases housemech_poll_response_shape st provider batch with
      ⟨_, h1⟩ | ⟨c, _, h1⟩
    · rw [h1]
    · rw [h1]
      split <;> omega
  · intro hne
    rcases housemech_poll_response_shape st provider batch with
      ⟨h2, h1⟩ | ⟨c, h2, h1⟩
    · exact absurd h2 hne
    · obtain ⟨hts, hmem⟩ := housemech_process_batch_spec c batch
      refine ⟨?_, ?_, ?_⟩
      · intro r hr
        rw [h2] at hr ⊢
        exact housemech_ts_max_bound _ 0 r hr
      · rw [h2]
        rcases housemech_ts_max_mem
            ((housemech_process_batch c batch).2.1) 0 with hzero | ⟨r, hr, hr2⟩
        · exfalso
          rw [h2] at hne
          obtain ⟨r0, hr0⟩ := List.exists_mem_of_ne_nil _ hne
          have h0 : 0 < r0.timestamp := hpos r0 (hmem r0 hr0)
          have hub := housemech_ts_max_bound _ 0 r0 hr0
          rw [hzero] at hub
          omega
        · rw [housemech_batch_ts_max, hr2]
          exact List.mem_map_of_mem PollRecord.timestamp hr
      · intro hcond
        rw [h2] at hcond
        rw [h1, h2, hts, if_pos hcond]

/-- C8 witness: a one-record batch with timestamp 100 and id 1 delivered
while locked on provider p with watermark 10 advances the watermark to
95 = 100 - 5. -/
theorem claim_C8_watermark_monotone_witness :
    (∀ r ∈ ([⟨100, "x", "y", "z", 1⟩] : List PollRecord), 0 < r.timestamp)
    ∧ (([⟨100, "x", "y", "z", 1⟩] : List PollRecord)
        = (housemech_poll_response_model ⟨some "p", 0, 10⟩ "p"
            [⟨100, "x", "y", "z", 1⟩]).2)
    ∧ ((95:Int)
        = (housemech_poll_response_model ⟨some "p", 0, 10⟩ "p"
            [⟨100, "x", "y", "z", 1⟩]).1.latestTime)
    ∧ (housemech_event_response_model = housemech_poll_response_model
       ∧ housemech_sensor_response_model = housemech_poll_response_model
       ∧ (⟨some "p", 0, 10⟩ : PollState).latestTime ≤ 95
       ∧ (([⟨100, "x", "y", "z", 1⟩] : List PollRecord) ≠ [] →
           (∀ r ∈ ([⟨100, "x", "y", "z", 1⟩] : List PollRecord),
               r.timestamp ≤ housemech_batch_ts_max [⟨100, "x", "y", "z", 1⟩])
           ∧ housemech_batch_ts_max [⟨100, "x", "y", "z", 1⟩]
               ∈ ([⟨100, "x", "y", "z", 1⟩] : List PollRecord).map
                   PollRecord.timestamp
           ∧ (housemech_batch_ts_max [⟨100, "x", "y", "z", 1⟩] - 5
                 > (⟨some "p", 0, 10⟩ : PollState).latestTime →
               (95:Int) = housemech_batch_ts_max [⟨100, "x", "y", "z", 1⟩] - 5))) :=
  ⟨by decide, by decide, by decide,
   claim_C8_watermark_monotone ⟨some "p", 0, 10⟩ "p"
     [⟨100, "x", "y", "z", 1⟩] [⟨100, "x", "y", "z", 1⟩] 95
     (by decide) (by decide) (by decide)⟩

/-- C10 witness: initialization at wall-clock time 7 with a zero watermark
yields 7000; re-initialization leaves it unchanged. -/
theorem claim_C10_init_watermark_witness :
    (1:Int) ≤ 7
    ∧ (((0:Int) ≤ 0 → housemech_event_init 0 7 = 7 * 1000
            ∧ housemech_sensor_init 0 7 = 7 * 1000)
       ∧ ((0:Int) < 0 → housemech_event_init 0 7 = 0
              ∧ housemech_sensor_init 0 7 = 0)
       ∧ (∀ later, housemech_event_init (housemech_event_init 0 7) later
             = housemech_event_init 0 7)
       ∧ (∀ later, housemech_sensor_init (housemech_sensor_init 0 7) later
             = housemech_sensor_init 0 7)
       ∧ (∀ provider latestvalue id,
           (housemech_event_check_decide ⟨none, id, housemech_event_init 0 7⟩
               provider latestvalue true).2
             = some (housemech_event_init 0 7))) :=
  ⟨by decide, claim_C10_init_watermark 0 7 (by decide)⟩

end HouseMech
